import Mathlib

/-!
Verification development for the YX5300 MP3 module driver
(src/src/YX5300.c, src/src/include/YX5300.h).

The driver is shallowly embedded: C byte values are `Nat` (implicit C
narrowing conversions are made explicit with `% 256` / `% 65536` exactly
where the C code assigns a wider value to a `uint8_t` / `uint16_t`
field), the receive buffer is a `List Nat` of length `YX5300_RESPONSE_SIZE`,
and the transport (platform function-pointer table) is modelled by
presence flags plus a send-result oracle indexed by the number of send
calls performed so far; the outside world (bytes handed to `Send`,
delays performed, platform init invocations) is threaded explicitly as
`YX5300_World`.
-/

namespace YX5300

/-- Constant `YX5300_RESPONSE_SIZE` from YX5300.h (receive buffer capacity). -/
def YX5300_RESPONSE_SIZE : Nat := 10

/-- Frame marker and protocol constants from YX5300.c. -/
def YX5300_CMD_START_BYTE : Nat := 0x7E

def YX5300_CMD_VERSION : Nat := 0xFF

def YX5300_CMD_FEEDBACK : Nat := 0x01

def YX5300_CMD_END_BYTE : Nat := 0xEF

/-- Command codes from YX5300.c. -/
def YX5300_CMD_NEXT : Nat := 0x01

def YX5300_CMD_PREV : Nat := 0x02

def YX5300_CMD_PLAY_INDEX : Nat := 0x03

def YX5300_CMD_VOL_UP : Nat := 0x04

def YX5300_CMD_VOL_DOWN : Nat := 0x05

def YX5300_CMD_VOL_SET : Nat := 0x06

def YX5300_CMD_SEL_DEV : Nat := 0x09

def YX5300_CMD_RESET : Nat := 0x0C

def YX5300_CMD_PLAY : Nat := 0x0D

def YX5300_CMD_PAUSE : Nat := 0x0E

def YX5300_CMD_PLAY_FOLD_FILE : Nat := 0x0F

def YX5300_CMD_STOP : Nat := 0x16

def YX5300_CMD_QUERY_STATUS : Nat := 0x42

def YX5300_CMD_QUERY_VOLUME : Nat := 0x43

def YX5300_CMD_PLAYING_N : Nat := 0x4C

/-- Result enumeration `YX5300_Result_t` from YX5300.h. -/
inductive YX5300_Result_t where
  | YX5300_OK
  | YX5300_FAIL
  | YX5300_INVALID_PARAM
  | YX5300_RX_COMPLETE
deriving DecidableEq, Repr

open YX5300_Result_t

/-- The platform (transport) function-pointer table `YX5300_Platform_t`.
The optional function pointers are modelled by presence flags (a C NULL
pointer is `false`); the `Send` function's return value is an oracle
indexed by how many send calls happened before (so a transport that
fails only on its first call is expressible). -/
structure YX5300_Platform_t where
  hasInit : Bool
  hasDeInit : Bool
  hasDelay : Bool
  hasSend : Bool
  sendRet : Nat → Int

/-- The `Rx` sub-record of `YX5300_Handler_t`: receive buffer plus write
cursor. (The `InFrame` field of the C struct is never read or written by
the driver code and is omitted.) -/
structure YX5300_Rx_t where
  Buffer : List Nat
  BufferIndex : Nat
deriving DecidableEq, Repr

/-- The `Status` sub-record (Device State) of `YX5300_Handler_t`. -/
structure YX5300_Status_t where
  LastCommand : Nat
  LastResponse : Nat
  LastCommandData : Nat
  LastResponseData : Nat
  Volume : Nat
  Track : Nat
  StatusByte : Nat
  MemoryInserted : Nat
deriving DecidableEq, Repr

/-- The driver handler `YX5300_Handler_t`. -/
structure YX5300_Handler_t where
  Platform : YX5300_Platform_t
  Rx : YX5300_Rx_t
  Status : YX5300_Status_t

/-- The observable outside world: frames handed to the transport send
capability (in order), delays performed, and number of platform init
invocations. -/
structure YX5300_World where
  sent : List (List Nat)
  delays : List Nat
  inits : Nat
deriving DecidableEq, Repr

/-- Record a call of the platform delay capability. -/
def YX5300_Delay (w : YX5300_World) (ms : Nat) : YX5300_World :=
  { w with delays := w.delays ++ [ms] }

/-- The 8-byte outbound command frame assembled at the top of
`YX5300_SendCommand` (YX5300.c lines 87-96). -/
def YX5300_CommandFrame (Command Data1 Data2 : Nat) : List Nat :=
  [YX5300_CMD_START_BYTE, YX5300_CMD_VERSION, 0x06, Command,
   YX5300_CMD_FEEDBACK, Data1, Data2, YX5300_CMD_END_BYTE]

/-- `YX5300_SendCommand` (YX5300.c lines 83-107): build the frame, hand it
to the transport, and on success record last-command state and clear
last-response state.  `(Data1 << 8) | Data2` is computed in `int` and
assigned to the `uint16_t` field `LastCommandData`, hence the `% 65536`. -/
def YX5300_SendCommand (h : YX5300_Handler_t) (w : YX5300_World)
    (Command Data1 Data2 : Nat) :
    YX5300_Result_t × YX5300_Handler_t × YX5300_World :=
  let Data := YX5300_CommandFrame Command Data1 Data2
  let r := h.Platform.sendRet w.sent.length
  let w' := { w with sent := w.sent ++ [Data] }
  if r < 0 then (YX5300_FAIL, h, w')
  else
    (YX5300_OK,
     { h with Status := { h.Status with
         LastCommand := Command,
         LastCommandData := ((Data1 <<< 8) ||| Data2) % 65536,
         LastResponse := 0,
         LastResponseData := 0 } },
     w')

/-- `YX5300_ParseResponse` (YX5300.c lines 110-165): unconditionally write
`LastResponse` from buffer offset 3 and `LastResponseData` from offsets
5-6, then dispatch on the response code.  Assignments of the `uint16_t`
value `LastResponseData` to the `uint8_t` fields `Volume` and
`StatusByte` narrow, hence the `% 256`. -/
def YX5300_ParseResponse (h : YX5300_Handler_t) :
    YX5300_Result_t × YX5300_Handler_t :=
  let rsp := h.Rx.Buffer.getD 3 0
  let dat := (((h.Rx.Buffer.getD 5 0) <<< 8) ||| h.Rx.Buffer.getD 6 0) % 65536
  let st := { h.Status with LastResponse := rsp, LastResponseData := dat }
  if rsp = 0x3A then (YX5300_OK, { h with Status := { st with MemoryInserted := 1 } })
  else if rsp = 0x3D then (YX5300_OK, { h with Status := { st with Track := 0 } })
  else if rsp = 0x40 then (YX5300_OK, { h with Status := st })
  else if rsp = 0x41 then (YX5300_OK, { h with Status := st })
  else if rsp = 0x42 then
    let st2 : YX5300_Status_t := { st with StatusByte := dat % 256 }
    if st2.StatusByte = 0 then (YX5300_OK, { h with Status := { st2 with Track := 0 } })
    else (YX5300_OK, { h with Status := st2 })
  else if rsp = 0x43 then (YX5300_OK, { h with Status := { st with Volume := dat % 256 } })
  else if rsp = 0x48 then (YX5300_OK, { h with Status := { st with Track := dat } })
  else if rsp = 0x4C then (YX5300_OK, { h with Status := st })
  else if rsp = 0x4E then (YX5300_OK, { h with Status := st })
  else if rsp = 0x4F then (YX5300_OK, { h with Status := st })
  else (YX5300_FAIL, { h with Status := st })

/-- The buffer index at which `YX5300_Rx` stores the incoming byte: the
current cursor, or 0 after the overflow reset (YX5300.c lines 234-238). -/
def YX5300_RxStoreIndex (h : YX5300_Handler_t) : Nat :=
  if h.Rx.BufferIndex ≥ YX5300_RESPONSE_SIZE then 0 else h.Rx.BufferIndex

/-- `YX5300_Rx` (YX5300.c lines 231-260): the byte-at-a-time receive state
machine.  Reset the cursor if it reached capacity, store the byte, then
either wait for the start marker (cursor 0) or advance and complete the
frame on the end marker. -/
def YX5300_Rx (h : YX5300_Handler_t) (Data : Nat) :
    YX5300_Result_t × YX5300_Handler_t :=
  let i := YX5300_RxStoreIndex h
  let h1 := { h with Rx := { Buffer := h.Rx.Buffer.set i Data, BufferIndex := i } }
  if i = 0 then
    if Data = YX5300_CMD_START_BYTE then
      (YX5300_OK, { h1 with Rx := { h1.Rx with BufferIndex := 1 } })
    else (YX5300_OK, h1)
  else
    let h2 := { h1 with Rx := { h1.Rx with BufferIndex := i + 1 } }
    if Data = YX5300_CMD_END_BYTE then
      let h3 := { h2 with Rx := { h2.Rx with BufferIndex := 0 } }
      let pr := YX5300_ParseResponse h3
      if pr.1 ≠ YX5300_OK then (YX5300_FAIL, pr.2)
      else (YX5300_RX_COMPLETE, pr.2)
    else (YX5300_OK, h2)

/-- Feed a byte sequence to `YX5300_Rx` one byte at a time, returning the
result of the final call together with the final handler. -/
def YX5300_RxFeed : YX5300_Handler_t → List Nat →
    YX5300_Result_t × YX5300_Handler_t
  | h, [] => (YX5300_OK, h)
  | h, [b] => YX5300_Rx h b
  | h, b :: bs => YX5300_RxFeed (YX5300_Rx h b).2 bs

/-- `YX5300_Init` (YX5300.c lines 185-208): validate the mandatory delay
and send capabilities, invoke the optional platform init, then reset and
select-device with 500 ms delays, aborting on the first send failure.
(The C NULL-handler check has no counterpart in the embedding, where a
handler value always exists.) -/
def YX5300_Init (h : YX5300_Handler_t) (w : YX5300_World) :
    YX5300_Result_t × YX5300_Handler_t × YX5300_World :=
  if h.Platform.hasDelay = false ∨ h.Platform.hasSend = false then
    (YX5300_INVALID_PARAM, h, w)
  else
    let w1 := if h.Platform.hasInit then { w with inits := w.inits + 1 } else w
    let w2 := YX5300_Delay w1 500
    let s1 := YX5300_SendCommand h w2 YX5300_CMD_RESET 0 0
    if s1.1 ≠ YX5300_OK then (YX5300_FAIL, s1.2.1, s1.2.2)
    else
      let w3 := YX5300_Delay s1.2.2 500
      let s2 := YX5300_SendCommand s1.2.1 w3 YX5300_CMD_SEL_DEV 0 2
      if s2.1 ≠ YX5300_OK then (YX5300_FAIL, s2.2.1, s2.2.2)
      else (YX5300_OK, s2.2.1, YX5300_Delay s2.2.2 500)

/-- `YX5300_UpdateStatus` (YX5300.c lines 273-277). -/
def YX5300_UpdateStatus (h : YX5300_Handler_t) (w : YX5300_World) :
    YX5300_Result_t × YX5300_Handler_t × YX5300_World :=
  YX5300_SendCommand h w YX5300_CMD_QUERY_STATUS 0 0

/-- `YX5300_UpdateVolume` (YX5300.c lines 291-295). -/
def YX5300_UpdateVolume (h : YX5300_Handler_t) (w : YX5300_World) :
    YX5300_Result_t × YX5300_Handler_t × YX5300_World :=
  YX5300_SendCommand h w YX5300_CMD_QUERY_VOLUME 0 0

/-- `YX5300_UpdateTrack` (YX5300.c lines 309-313). -/
def YX5300_UpdateTrack (h : YX5300_Handler_t) (w : YX5300_World) :
    YX5300_Result_t × YX5300_Handler_t × YX5300_World :=
  YX5300_SendCommand h w YX5300_CMD_PLAYING_N 0 0

/-- `YX5300_PlayNext` (YX5300.c lines 323-327). -/
def YX5300_PlayNext (h : YX5300_Handler_t) (w : YX5300_World) :
    YX5300_Result_t × YX5300_Handler_t × YX5300_World :=
  YX5300_SendCommand h w YX5300_CMD_NEXT 0 0

/-- `YX5300_PlayPrev` (YX5300.c lines 337-341). -/
def YX5300_PlayPrev (h : YX5300_Handler_t) (w : YX5300_World) :
    YX5300_Result_t × YX5300_Handler_t × YX5300_World :=
  YX5300_SendCommand h w YX5300_CMD_PREV 0 0

/-- `YX5300_VolumeUp` (YX5300.c lines 351-355). -/
def YX5300_VolumeUp (h : YX5300_Handler_t) (w : YX5300_World) :
    YX5300_Result_t × YX5300_Handler_t × YX5300_World :=
  YX5300_SendCommand h w YX5300_CMD_VOL_UP 0 0

/-- `YX5300_VolumeDown` (YX5300.c lines 365-369). -/
def YX5300_VolumeDown (h : YX5300_Handler_t) (w : YX5300_World) :
    YX5300_Result_t × YX5300_Handler_t × YX5300_World :=
  YX5300_SendCommand h w YX5300_CMD_VOL_DOWN 0 0

/-- `YX5300_SetVolume` (YX5300.c lines 380-386): clamp to 30, then send. -/
def YX5300_SetVolume (h : YX5300_Handler_t) (w : YX5300_World)
    (Volume : Nat) : YX5300_Result_t × YX5300_Handler_t × YX5300_World :=
  let v := if Volume > 30 then 30 else Volume
  YX5300_SendCommand h w YX5300_CMD_VOL_SET 0 v

/-- `YX5300_PlayTrack` (YX5300.c lines 397-402): split the 16-bit track
number into high and low bytes; the casts to `uint8_t` are the `% 256`
and the `&&& 0xFF`. -/
def YX5300_PlayTrack (h : YX5300_Handler_t) (w : YX5300_World)
    (Track : Nat) : YX5300_Result_t × YX5300_Handler_t × YX5300_World :=
  YX5300_SendCommand h w YX5300_CMD_PLAY_INDEX ((Track >>> 8) % 256) (Track &&& 0xFF)

/-- `YX5300_PlayFolderFile` (YX5300.c lines 413-417). -/
def YX5300_PlayFolderFile (h : YX5300_Handler_t) (w : YX5300_World)
    (Folder File : Nat) : YX5300_Result_t × YX5300_Handler_t × YX5300_World :=
  YX5300_SendCommand h w YX5300_CMD_PLAY_FOLD_FILE Folder File

/-- `YX5300_Resume` (YX5300.c lines 427-431). -/
def YX5300_Resume (h : YX5300_Handler_t) (w : YX5300_World) :
    YX5300_Result_t × YX5300_Handler_t × YX5300_World :=
  YX5300_SendCommand h w YX5300_CMD_PLAY 0 0

/-- `YX5300_Pause` (YX5300.c lines 441-445). -/
def YX5300_Pause (h : YX5300_Handler_t) (w : YX5300_World) :
    YX5300_Result_t × YX5300_Handler_t × YX5300_World :=
  YX5300_SendCommand h w YX5300_CMD_PAUSE 0 0

/-- `YX5300_Stop` (YX5300.c lines 455-459). -/
def YX5300_Stop (h : YX5300_Handler_t) (w : YX5300_World) :
    YX5300_Result_t × YX5300_Handler_t × YX5300_World :=
  YX5300_SendCommand h w YX5300_CMD_STOP 0 0

/-- A zeroed Device State record, as after C zero-initialization. -/
def zeroStatus : YX5300_Status_t := ⟨0, 0, 0, 0, 0, 0, 0, 0⟩

/-- A zeroed receive state: empty length-10 buffer, cursor 0. -/
def zeroRx : YX5300_Rx_t := ⟨List.replicate 10 0, 0⟩

/-- A fully provided platform whose send capability always succeeds. -/
def okPlatform : YX5300_Platform_t := ⟨true, true, true, true, fun _ => 0⟩

/-- A fully provided platform whose send capability always fails. -/
def failPlatform : YX5300_Platform_t := ⟨true, true, true, true, fun _ => -1⟩

/-- A platform missing the mandatory send capability. -/
def noSendPlatform : YX5300_Platform_t := ⟨true, true, true, false, fun _ => 0⟩

/-- A zero-initialized handler over `okPlatform`. -/
def okHandler : YX5300_Handler_t := ⟨okPlatform, zeroRx, zeroStatus⟩

/-- A zero-initialized handler over `failPlatform`. -/
def failHandler : YX5300_Handler_t := ⟨failPlatform, zeroRx, zeroStatus⟩

/-- A zero-initialized handler over `noSendPlatform`. -/
def noSendHandler : YX5300_Handler_t := ⟨noSendPlatform, zeroRx, zeroStatus⟩

/-- A world in which nothing has happened yet. -/
def emptyWorld : YX5300_World := ⟨[], [], 0⟩

/-- A handler whose receive buffer holds leftover junk bytes with a volume
reply code at offset 3 and volume data at offset 6, cursor 0. -/
def junkHandler : YX5300_Handler_t :=
  ⟨okPlatform, ⟨[9, 9, 9, 0x43, 9, 0, 0x1A, 9, 9, 9], 0⟩, zeroStatus⟩

/-- A handler mid-frame: cursor 4, buffer holding a partial frame over
leftover junk with a volume reply code at offset 3. -/
def midFrameHandler : YX5300_Handler_t :=
  ⟨okPlatform, ⟨[0x7E, 0xFF, 0x06, 0x43, 9, 0, 0x1A, 9, 9, 9], 4⟩, zeroStatus⟩

/-- A handler whose cursor already reached the buffer capacity. -/
def overflowHandler : YX5300_Handler_t :=
  ⟨okPlatform, ⟨List.replicate 10 0, 10⟩, zeroStatus⟩

/-- A handler like `overflowHandler` but with the cursor reset to 0. -/
def overflowHandlerReset : YX5300_Handler_t :=
  ⟨okPlatform, ⟨List.replicate 10 0, 0⟩, zeroStatus⟩

/-- A list of length 10 is exactly ten conses. -/
theorem buffer_ten (l : List Nat) (hl : l.length = 10) :
    ∃ b0 b1 b2 b3 b4 b5 b6 b7 b8 b9,
      l = [b0, b1, b2, b3, b4, b5, b6, b7, b8, b9] := by
  rcases l with _ | ⟨b0, l⟩; · simp at hl
  rcases l with _ | ⟨b1, l⟩; · simp at hl
  rcases l with _ | ⟨b2, l⟩; · simp at hl
  rcases l with _ | ⟨b3, l⟩; · simp at hl
  rcases l with _ | ⟨b4, l⟩; · simp at hl
  rcases l with _ | ⟨b5, l⟩; · simp at hl
  rcases l with _ | ⟨b6, l⟩; · simp at hl
  rcases l with _ | ⟨b7, l⟩; · simp at hl
  rcases l with _ | ⟨b8, l⟩; · simp at hl
  rcases l with _ | ⟨b9, l⟩; · simp at hl
  rcases l with _ | ⟨b10, l⟩
  · exact ⟨b0, b1, b2, b3, b4, b5, b6, b7, b8, b9, rfl⟩
  · simp at hl

/-- Combining a high byte and a low byte with shift and or is the same as
positional arithmetic, when the low part fits in one byte. -/
theorem lor_byte_shift_eq (d1 d2 : Nat) (h2 : d2 < 256) :
    (d1 <<< 8) ||| d2 = 256 * d1 + d2 := by
  have h := Nat.mul_add_lt_is_or (i := 8) (b := d2) (by simpa using h2) d1
  rw [Nat.shiftLeft_eq, Nat.mul_comm d1 (2 ^ 8), ← h]

/-- Two bytes combined with shift and or fit in sixteen bits. -/
theorem lor_byte_shift_lt (d1 d2 : Nat) (h1 : d1 < 256) (h2 : d2 < 256) :
    (d1 <<< 8) ||| d2 < 65536 := by
  rw [lor_byte_shift_eq d1 d2 h2]; omega

/-- The store index computed by `YX5300_Rx` is always strictly below the
buffer capacity. -/
theorem rxStoreIndex_lt (h : YX5300_Handler_t) :
    YX5300_RxStoreIndex h < YX5300_RESPONSE_SIZE := by
  unfold YX5300_RxStoreIndex YX5300_RESPONSE_SIZE
  split <;> omega

/-- `YX5300_ParseResponse` writes the last-response fields from buffer
offsets 3 and 5-6 on every dispatch branch, recognized or not, and never
touches the receive state or the platform. -/
theorem parse_writes_last (h : YX5300_Handler_t) :
    (YX5300_ParseResponse h).2.Status.LastResponse = h.Rx.Buffer.getD 3 0 ∧
    (YX5300_ParseResponse h).2.Status.LastResponseData
      = (((h.Rx.Buffer.getD 5 0) <<< 8) ||| h.Rx.Buffer.getD 6 0) % 65536 ∧
    (YX5300_ParseResponse h).2.Rx = h.Rx ∧
    (YX5300_ParseResponse h).2.Platform = h.Platform := by
  by_cases e1 : h.Rx.Buffer[3]?.getD 0 = 0x3A
  · simp [YX5300_ParseResponse, e1]
  by_cases e2 : h.Rx.Buffer[3]?.getD 0 = 0x3D
  · simp [YX5300_ParseResponse, e1, e2]
  by_cases e3 : h.Rx.Buffer[3]?.getD 0 = 0x40
  · simp [YX5300_ParseResponse, e1, e2, e3]
  by_cases e4 : h.Rx.Buffer[3]?.getD 0 = 0x41
  · simp [YX5300_ParseResponse, e1, e2, e3, e4]
  by_cases e5 : h.Rx.Buffer[3]?.getD 0 = 0x42
  · by_cases e5b :
        ((h.Rx.Buffer[5]?.getD 0 <<< 8 ||| h.Rx.Buffer[6]?.getD 0) % 65536) % 256 = 0
    · simp [YX5300_ParseResponse, e1, e2, e3, e4, e5, e5b]
    · simp [YX5300_ParseResponse, e1, e2, e3, e4, e5, e5b]
  by_cases e6 : h.Rx.Buffer[3]?.getD 0 = 0x43
  · simp [YX5300_ParseResponse, e1, e2, e3, e4, e5, e6]
  by_cases e7 : h.Rx.Buffer[3]?.getD 0 = 0x48
  · simp [YX5300_ParseResponse, e1, e2, e3, e4, e5, e6, e7]
  by_cases e8 : h.Rx.Buffer[3]?.getD 0 = 0x4C
  · simp [YX5300_ParseResponse, e1, e2, e3, e4, e5, e6, e7, e8]
  by_cases e9 : h.Rx.Buffer[3]?.getD 0 = 0x4E
  · simp [YX5300_ParseResponse, e1, e2, e3, e4, e5, e6, e7, e8, e9]
  by_cases e10 : h.Rx.Buffer[3]?.getD 0 = 0x4F
  · simp [YX5300_ParseResponse, e1, e2, e3, e4, e5, e6, e7, e8, e9, e10]
  simp [YX5300_ParseResponse, e1, e2, e3, e4, e5, e6, e7, e8, e9, e10]

/-- Feeding any run of bytes none of which is the start marker, beginning
at cursor 0, stores every byte at index 0, leaves the cursor at 0 and
Device State, buffer length and platform untouched. -/
theorem rxFeed_no_start (bytes : List Nat) (h : YX5300_Handler_t)
    (hidx : h.Rx.BufferIndex = 0) (hb : ∀ b ∈ bytes, b ≠ 0x7E) :
    (YX5300_RxFeed h bytes).2.Rx.BufferIndex = 0 ∧
    (YX5300_RxFeed h bytes).2.Status = h.Status ∧
    (YX5300_RxFeed h bytes).2.Rx.Buffer.length = h.Rx.Buffer.length ∧
    (YX5300_RxFeed h bytes).2.Platform = h.Platform := by
  induction bytes generalizing h with
  | nil => simp [YX5300_RxFeed, hidx]
  | cons b bs ih =>
    have hb0 : b ≠ 0x7E := hb b (by simp)
    have hstep : YX5300_Rx h b
        = (YX5300_OK,
           { h with Rx := { Buffer := h.Rx.Buffer.set 0 b, BufferIndex := 0 } }) := by
      simp [YX5300_Rx, YX5300_RxStoreIndex, YX5300_RESPONSE_SIZE, hidx, hb0,
        YX5300_CMD_START_BYTE]
    cases bs with
    | nil =>
      rw [show YX5300_RxFeed h [b] = YX5300_Rx h b from rfl, hstep]
      simp
    | cons c cs =>
      rw [show YX5300_RxFeed h (b :: c :: cs)
            = YX5300_RxFeed (YX5300_Rx h b).2 (c :: cs) from rfl, hstep]
      have hrec := ih { h with Rx := { Buffer := h.Rx.Buffer.set 0 b, BufferIndex := 0 } }
        rfl (fun x hx => hb x (by simp [hx]))
      refine ⟨hrec.1, hrec.2.1, ?_, hrec.2.2.2⟩
      rw [hrec.2.2.1]
      simp

/-- Feeding a well-formed volume-reply frame carrying data 26 at offsets
5-6 to a decoder at cursor 0 completes on the final byte and caches
volume 26. -/
theorem goodVolumeFrame_completes (h : YX5300_Handler_t) (x : Nat)
    (hidx : h.Rx.BufferIndex = 0) (hlen : h.Rx.Buffer.length = 10)
    (hx : x ≠ 0xEF) :
    (YX5300_RxFeed h [0x7E, 0xFF, 0x06, 0x43, 0x00, 0x00, 0x1A, 0x00, x, 0xEF]).1
      = YX5300_RX_COMPLETE ∧
    (YX5300_RxFeed h [0x7E, 0xFF, 0x06, 0x43, 0x00, 0x00, 0x1A, 0x00, x, 0xEF]).2.Status.Volume
      = 26 ∧
    (YX5300_RxFeed h [0x7E, 0xFF, 0x06, 0x43, 0x00, 0x00, 0x1A, 0x00, x, 0xEF]).2.Rx.BufferIndex
      = 0 := by
  obtain ⟨b0, b1, b2, b3, b4, b5, b6, b7, b8, b9, hbuf⟩ := buffer_ten _ hlen
  rcases h with ⟨plat, ⟨buf, idx⟩, st⟩
  simp only at hidx hlen hbuf
  subst hidx hbuf
  simp [YX5300_RxFeed, YX5300_Rx, YX5300_RxStoreIndex, YX5300_RESPONSE_SIZE,
    YX5300_CMD_START_BYTE, YX5300_CMD_END_BYTE, YX5300_ParseResponse, hx]

/-- When the transport send reports failure, `YX5300_SendCommand` returns
failure, leaves the handler entirely unchanged, and the attempted frame is
the only new send. -/
theorem sendCommand_fail (h : YX5300_Handler_t) (w : YX5300_World)
    (hf : h.Platform.sendRet w.sent.length < 0) (c d1 d2 : Nat) :
    (YX5300_SendCommand h w c d1 d2).1 = YX5300_FAIL ∧
    (YX5300_SendCommand h w c d1 d2).2.1 = h ∧
    (YX5300_SendCommand h w c d1 d2).2.2.sent
      = w.sent ++ [YX5300_CommandFrame c d1 d2] := by
  simp [YX5300_SendCommand, hf]

/-- When the transport send succeeds, `YX5300_SendCommand` returns success
and updates exactly the last-command and last-response fields. -/
theorem sendCommand_ok (h : YX5300_Handler_t) (w : YX5300_World)
    (hok : 0 ≤ h.Platform.sendRet w.sent.length) (c d1 d2 : Nat) :
    (YX5300_SendCommand h w c d1 d2).1 = YX5300_OK ∧
    (YX5300_SendCommand h w c d1 d2).2.1.Status
      = { h.Status with
          LastCommand := c
          LastCommandData := ((d1 <<< 8) ||| d2) % 65536
          LastResponse := 0
          LastResponseData := 0 } ∧
    (YX5300_SendCommand h w c d1 d2).2.2.sent
      = w.sent ++ [YX5300_CommandFrame c d1 d2] := by
  have hns : ¬ h.Platform.sendRet w.sent.length < 0 := not_lt.mpr hok
  simp [YX5300_SendCommand, hns]

/-- Claim C1: for every command code byte and every pair of data bytes,
the outbound frame built by the encoder (`YX5300_SendCommand`) is exactly
8 bytes with byte 0 = 0x7E, byte 1 = 0xFF, byte 2 = 0x06, byte 3 = the
command code, byte 4 = 0x01, byte 5 = data1, byte 6 = data2, byte 7 =
0xEF; and this frame is exactly what is handed to the transport send
capability. -/
theorem C1_command_frame_layout (h : YX5300_Handler_t) (w : YX5300_World)
    (c d1 d2 : Nat) :
    (YX5300_SendCommand h w c d1 d2).2.2.sent
      = w.sent ++ [YX5300_CommandFrame c d1 d2] ∧
    (YX5300_CommandFrame c d1 d2).length = 8 ∧
    (YX5300_CommandFrame c d1 d2).getD 0 0 = 0x7E ∧
    (YX5300_CommandFrame c d1 d2).getD 1 0 = 0xFF ∧
    (YX5300_CommandFrame c d1 d2).getD 2 0 = 0x06 ∧
    (YX5300_CommandFrame c d1 d2).getD 3 0 = c ∧
    (YX5300_CommandFrame c d1 d2).getD 4 0 = 0x01 ∧
    (YX5300_CommandFrame c d1 d2).getD 5 0 = d1 ∧
    (YX5300_CommandFrame c d1 d2).getD 6 0 = d2 ∧
    (YX5300_CommandFrame c d1 d2).getD 7 0 = 0xEF := by
  refine ⟨?_, rfl, rfl, rfl, rfl, rfl, rfl, rfl, rfl, rfl⟩
  simp only [YX5300_SendCommand]
  split <;> rfl

/-- Claim C6: for every volume value above 30, `YX5300_SetVolume` behaves
identically to `YX5300_SetVolume` at 30 — same transmitted frame, same
result, same handler state (volumes are clamped, never rejected). -/
theorem C6_volume_clamped (h : YX5300_Handler_t) (w : YX5300_World)
    (v : Nat) (hv : 30 < v) :
    YX5300_SetVolume h w v = YX5300_SetVolume h w 30 := by
  simp [YX5300_SetVolume, hv]

/-- Witness for C6 at volume 31. -/
theorem C6_witness :
    YX5300_SetVolume okHandler emptyWorld 31
      = YX5300_SetVolume okHandler emptyWorld 30 :=
  C6_volume_clamped okHandler emptyWorld 31 (by decide)

/-- Claim C10: every call of `YX5300_Rx` that returns the byte-accepted
outcome `YX5300_OK` leaves Device State and the platform untouched; only
the receive buffer and cursor may change. -/
theorem C10_ok_preserves_status (h : YX5300_Handler_t) (d : Nat)
    (hok : (YX5300_Rx h d).1 = YX5300_OK) :
    (YX5300_Rx h d).2.Status = h.Status ∧
    (YX5300_Rx h d).2.Platform = h.Platform := by
  unfold YX5300_Rx at hok ⊢
  by_cases h0 : YX5300_RxStoreIndex h = 0
  · by_cases hs : d = YX5300_CMD_START_BYTE <;> simp [h0, hs]
  · by_cases he : d = YX5300_CMD_END_BYTE
    · exfalso
      simp only [h0, he, if_neg, if_pos, ite_false, ite_true, reduceIte] at hok
      split at hok <;> simp_all
    · simp [h0, he]

/-- Witness for C10: feeding byte 0 to a fresh handler returns the
byte-accepted outcome and preserves Device State. -/
theorem C10_witness :
    (YX5300_Rx okHandler 0).2.Status = okHandler.Status ∧
    (YX5300_Rx okHandler 0).2.Platform = okHandler.Platform :=
  C10_ok_preserves_status okHandler 0 (by decide)

/-- Claim C7: for every public command operation, if the transport send
capability reports failure, the operation returns the failure result and
the handler — in particular every field of Device State — is unchanged. -/
theorem C7_send_failure_no_state (h : YX5300_Handler_t) (w : YX5300_World)
    (_hs : h.Platform.hasSend = true)
    (hf : h.Platform.sendRet w.sent.length < 0) :
    ((YX5300_UpdateStatus h w).1 = YX5300_FAIL ∧ (YX5300_UpdateStatus h w).2.1 = h) ∧
    ((YX5300_UpdateVolume h w).1 = YX5300_FAIL ∧ (YX5300_UpdateVolume h w).2.1 = h) ∧
    ((YX5300_UpdateTrack h w).1 = YX5300_FAIL ∧ (YX5300_UpdateTrack h w).2.1 = h) ∧
    ((YX5300_PlayNext h w).1 = YX5300_FAIL ∧ (YX5300_PlayNext h w).2.1 = h) ∧
    ((YX5300_PlayPrev h w).1 = YX5300_FAIL ∧ (YX5300_PlayPrev h w).2.1 = h) ∧
    ((YX5300_VolumeUp h w).1 = YX5300_FAIL ∧ (YX5300_VolumeUp h w).2.1 = h) ∧
    ((YX5300_VolumeDown h w).1 = YX5300_FAIL ∧ (YX5300_VolumeDown h w).2.1 = h) ∧
    ((YX5300_Resume h w).1 = YX5300_FAIL ∧ (YX5300_Resume h w).2.1 = h) ∧
    ((YX5300_Pause h w).1 = YX5300_FAIL ∧ (YX5300_Pause h w).2.1 = h) ∧
    ((YX5300_Stop h w).1 = YX5300_FAIL ∧ (YX5300_Stop h w).2.1 = h) ∧
    (∀ v, (YX5300_SetVolume h w v).1 = YX5300_FAIL
        ∧ (YX5300_SetVolume h w v).2.1 = h) ∧
    (∀ t, (YX5300_PlayTrack h w t).1 = YX5300_FAIL
        ∧ (YX5300_PlayTrack h w t).2.1 = h) ∧
    (∀ fo fi, (YX5300_PlayFolderFile h w fo fi).1 = YX5300_FAIL
        ∧ (YX5300_PlayFolderFile h w fo fi).2.1 = h) := by
  have base := sendCommand_fail h w hf
  exact ⟨⟨(base _ 0 0).1, (base _ 0 0).2.1⟩, ⟨(base _ 0 0).1, (base _ 0 0).2.1⟩,
    ⟨(base _ 0 0).1, (base _ 0 0).2.1⟩, ⟨(base _ 0 0).1, (base _ 0 0).2.1⟩,
    ⟨(base _ 0 0).1, (base _ 0 0).2.1⟩, ⟨(base _ 0 0).1, (base _ 0 0).2.1⟩,
    ⟨(base _ 0 0).1, (base _ 0 0).2.1⟩, ⟨(base _ 0 0).1, (base _ 0 0).2.1⟩,
    ⟨(base _ 0 0).1, (base _ 0 0).2.1⟩, ⟨(base _ 0 0).1, (base _ 0 0).2.1⟩,
    fun v => ⟨(base _ 0 _).1, (base _ 0 _).2.1⟩,
    fun t => ⟨(base _ _ _).1, (base _ _ _).2.1⟩,
    fun fo fi => ⟨(base _ fo fi).1, (base _ fo fi).2.1⟩⟩

/-- Witness for C7: a transport that fails on the first send leaves a
concrete handler untouched for a query and for a set-volume command. -/
theorem C7_witness :
    ((YX5300_UpdateStatus failHandler emptyWorld).1 = YX5300_FAIL ∧
     (YX5300_UpdateStatus failHandler emptyWorld).2.1 = failHandler) ∧
    ((YX5300_SetVolume failHandler emptyWorld 5).1 = YX5300_FAIL ∧
     (YX5300_SetVolume failHandler emptyWorld 5).2.1 = failHandler) := by
  have hc := C7_send_failure_no_state failHandler emptyWorld rfl (by decide)
  exact ⟨hc.1, hc.2.2.2.2.2.2.2.2.2.2.1 5⟩

/-- Claim C8: for every public command operation with command code c and
data bytes d1 and d2, a successful transport send leaves Device State
with LastCommand = c, LastCommandData = (d1 <<< 8) ||| d2, and the
last-response fields cleared to 0, all other fields unchanged. -/
theorem C8_success_records_command (h : YX5300_Handler_t) (w : YX5300_World)
    (_hs : h.Platform.hasSend = true)
    (hok : 0 ≤ h.Platform.sendRet w.sent.length) :
    (∀ c d1 d2, d1 < 256 → d2 < 256 →
      (YX5300_SendCommand h w c d1 d2).1 = YX5300_OK ∧
      (YX5300_SendCommand h w c d1 d2).2.1.Status
        = { h.Status with
            LastCommand := c
            LastCommandData := (d1 <<< 8) ||| d2
            LastResponse := 0
            LastResponseData := 0 }) ∧
    (YX5300_UpdateStatus h w).2.1.Status
      = { h.Status with
          LastCommand := YX5300_CMD_QUERY_STATUS
          LastCommandData := 0
          LastResponse := 0
          LastResponseData := 0 } ∧
    (YX5300_UpdateVolume h w).2.1.Status
      = { h.Status with
          LastCommand := YX5300_CMD_QUERY_VOLUME
          LastCommandData := 0
          LastResponse := 0
          LastResponseData := 0 } ∧
    (YX5300_UpdateTrack h w).2.1.Status
      = { h.Status with
          LastCommand := YX5300_CMD_PLAYING_N
          LastCommandData := 0
          LastResponse := 0
          LastResponseData := 0 } ∧
    (YX5300_PlayNext h w).2.1.Status
      = { h.Status with
          LastCommand := YX5300_CMD_NEXT
          LastCommandData := 0
          LastResponse := 0
          LastResponseData := 0 } ∧
    (YX5300_PlayPrev h w).2.1.Status
      = { h.Status with
          LastCommand := YX5300_CMD_PREV
          LastCommandData := 0
          LastResponse := 0
          LastResponseData := 0 } ∧
    (YX5300_VolumeUp h w).2.1.Status
      = { h.Status with
          LastCommand := YX5300_CMD_VOL_UP
          LastCommandData := 0
          LastResponse := 0
          LastResponseData := 0 } ∧
    (YX5300_VolumeDown h w).2.1.Status
      = { h.Status with
          LastCommand := YX5300_CMD_VOL_DOWN
          LastCommandData := 0
          LastResponse := 0
          LastResponseData := 0 } ∧
    (YX5300_Resume h w).2.1.Status
      = { h.Status with
          LastCommand := YX5300_CMD_PLAY
          LastCommandData := 0
          LastResponse := 0
          LastResponseData := 0 } ∧
    (YX5300_Pause h w).2.1.Status
      = { h.Status with
          LastCommand := YX5300_CMD_PAUSE
          LastCommandData := 0
          LastResponse := 0
          LastResponseData := 0 } ∧
    (YX5300_Stop h w).2.1.Status
      = { h.Status with
          LastCommand := YX5300_CMD_STOP
          LastCommandData := 0
          LastResponse := 0
          LastResponseData := 0 } ∧
    (∀ v, (YX5300_SetVolume h w v).2.1.Status
      = { h.Status with
          LastCommand := YX5300_CMD_VOL_SET
          LastCommandData := if v > 30 then 30 else v
          LastResponse := 0
          LastResponseData := 0 }) ∧
    (∀ t, t < 65536 → (YX5300_PlayTrack h w t).2.1.Status
      = { h.Status with
          LastCommand := YX5300_CMD_PLAY_INDEX
          LastCommandData := t
          LastResponse := 0
          LastResponseData := 0 }) ∧
    (∀ fo fi, fo < 256 → fi < 256 → (YX5300_PlayFolderFile h w fo fi).2.1.Status
      = { h.Status with
          LastCommand := YX5300_CMD_PLAY_FOLD_FILE
          LastCommandData := (fo <<< 8) ||| fi
          LastResponse := 0
          LastResponseData := 0 }) := by
  have base := sendCommand_ok h w hok
  have modless : ∀ d1 d2, d1 < 256 → d2 < 256 →
      ((d1 <<< 8) ||| d2) % 65536 = (d1 <<< 8) ||| d2 := fun d1 d2 h1 h2 =>
    Nat.mod_eq_of_lt (lor_byte_shift_lt d1 d2 h1 h2)
  refine ⟨?_, ?_, ?_, ?_, ?_, ?_, ?_, ?_, ?_, ?_, ?_, ?_, ?_, ?_⟩
  · intro c d1 d2 h1 h2
    refine ⟨(base c d1 d2).1, ((base c d1 d2).2.1).trans ?_⟩
    rw [modless d1 d2 h1 h2]
  · exact (base _ 0 0).2.1
  · exact (base _ 0 0).2.1
  · exact (base _ 0 0).2.1
  · exact (base _ 0 0).2.1
  · exact (base _ 0 0).2.1
  · exact (base _ 0 0).2.1
  · exact (base _ 0 0).2.1
  · exact (base _ 0 0).2.1
  · exact (base _ 0 0).2.1
  · exact (base _ 0 0).2.1
  · intro v
    have hv : (if v > 30 then 30 else v) < 65536 := by split <;> omega
    refine ((base YX5300_CMD_VOL_SET 0 (if v > 30 then 30 else v)).2.1).trans ?_
    rw [Nat.zero_shiftLeft, Nat.zero_or, Nat.mod_eq_of_lt hv]
  · intro t ht
    refine ((base YX5300_CMD_PLAY_INDEX ((t >>> 8) % 256) (t &&& 0xFF)).2.1).trans ?_
    have e1 : t &&& 0xFF = t % 256 := by
      have e := Nat.and_pow_two_sub_one_eq_mod t 8
      norm_num at e
      exact e
    have e2 : (t >>> 8) % 256 = t / 256 := by
      rw [Nat.shiftRight_eq_div_pow]
      norm_num
      omega
    have e3 : ((t / 256) <<< 8) ||| (t % 256)
        = 256 * (t / 256) + t % 256 :=
      lor_byte_shift_eq _ _ (Nat.mod_lt _ (by norm_num))
    rw [e1, e2, e3]
    have e4 : (256 * (t / 256) + t % 256) % 65536 = t := by omega
    rw [e4]
  · intro fo fi h1 h2
    refine ((base YX5300_CMD_PLAY_FOLD_FILE fo fi).2.1).trans ?_
    rw [modless fo fi h1 h2]

/-- Witness for C8: a concrete successful play-by-index command records
its command code and data and clears the last-response fields. -/
theorem C8_witness :
    (YX5300_SendCommand okHandler emptyWorld 3 1 2).1 = YX5300_OK ∧
    (YX5300_SendCommand okHandler emptyWorld 3 1 2).2.1.Status
      = { okHandler.Status with
          LastCommand := 3
          LastCommandData := (1 <<< 8) ||| 2
          LastResponse := 0
          LastResponseData := 0 } :=
  (C8_success_records_command okHandler emptyWorld rfl (by decide)).1
    3 1 2 (by decide) (by decide)

/-- Claim C5: initialization returns the invalid-configuration error with
no further action when the transport delay or send capability is missing;
and when the transport send fails on the first (reset) command frame,
initialization returns the communication-failure result and the reset
frame is the only frame ever handed to the transport — the select-device
step is never attempted. -/
theorem C5_init_error_paths :
    (∀ h w, h.Platform.hasDelay = false ∨ h.Platform.hasSend = false →
        YX5300_Init h w = (YX5300_INVALID_PARAM, h, w)) ∧
    (∀ h w, h.Platform.hasDelay = true → h.Platform.hasSend = true →
        h.Platform.sendRet w.sent.length < 0 →
        (YX5300_Init h w).1 = YX5300_FAIL ∧
        (YX5300_Init h w).2.2.sent
          = w.sent ++ [YX5300_CommandFrame YX5300_CMD_RESET 0 0] ∧
        (YX5300_Init h w).2.1 = h) := by
  constructor
  · intro h w hmiss
    rcases hmiss with hd | hs2
    · simp [YX5300_Init, hd]
    · simp [YX5300_Init, hs2]
  · intro h w hd hs2 hf
    have hw2 : (YX5300_Delay
        (if h.Platform.hasInit then { w with inits := w.inits + 1 } else w)
        500).sent = w.sent := by
      split <;> rfl
    have hf2 : h.Platform.sendRet
        ((YX5300_Delay
          (if h.Platform.hasInit then { w with inits := w.inits + 1 } else w)
          500).sent).length < 0 := by
      rw [hw2]; exact hf
    have hfail := sendCommand_fail h _ hf2 YX5300_CMD_RESET 0 0
    simp only [YX5300_Init, hd, hs2, Bool.true_eq_false, or_self, if_false,
      reduceIte]
    rw [hfail.1]
    simp [hfail.2.1, hfail.2.2, hw2]

/-- Witness for C5: a handler missing the send capability, and a handler
whose transport fails on the first send. -/
theorem C5_witness :
    YX5300_Init noSendHandler emptyWorld
      = (YX5300_INVALID_PARAM, noSendHandler, emptyWorld) ∧
    ((YX5300_Init failHandler emptyWorld).1 = YX5300_FAIL ∧
     (YX5300_Init failHandler emptyWorld).2.2.sent
       = emptyWorld.sent ++ [YX5300_CommandFrame YX5300_CMD_RESET 0 0] ∧
     (YX5300_Init failHandler emptyWorld).2.1 = failHandler) :=
  ⟨C5_init_error_paths.1 noSendHandler emptyWorld (Or.inr rfl),
   C5_init_error_paths.2 failHandler emptyWorld rfl rfl (by decide)⟩

/-- Counterexample to claim C2 as stated: the spec's byte sequence
`7E FF 06 43 00 00 00 1A ?? EF` places the volume datum 0x1A at buffer
offset 7, but the parser reads the 16-bit datum from offsets 5-6, so with
`?? = 0x00` the final byte completes the frame yet caches volume 0, not
26; and with `?? = 0xEF` the frame already completes on the ninth byte,
so the final byte does not even yield the frame-complete outcome. -/
theorem C2_counterexample :
    ((YX5300_RxFeed okHandler
        [0x7E, 0xFF, 0x06, 0x43, 0x00, 0x00, 0x00, 0x1A, 0x00, 0xEF]).1
      = YX5300_RX_COMPLETE ∧
     (YX5300_RxFeed okHandler
        [0x7E, 0xFF, 0x06, 0x43, 0x00, 0x00, 0x00, 0x1A, 0x00, 0xEF]).2.Status.Volume
      = 0 ∧
     (YX5300_RxFeed okHandler
        [0x7E, 0xFF, 0x06, 0x43, 0x00, 0x00, 0x00, 0x1A, 0x00, 0xEF]).2.Status.Volume
      ≠ 26) ∧
    (YX5300_RxFeed okHandler
        [0x7E, 0xFF, 0x06, 0x43, 0x00, 0x00, 0x00, 0x1A, 0xEF, 0xEF]).1
      = YX5300_OK := by decide

/-- Claim C2 (amended): feeding the ten bytes
`7E FF 06 43 00 00 1A 00 ?? EF` — the volume datum 26 at the offsets 5-6
the parser actually reads — one at a time to `YX5300_Rx`, starting from a
decoder at cursor 0, yields the frame-complete outcome on the final byte
(provided the wildcard byte is not the end marker 0xEF) and afterwards
the cached Volume field equals 26. -/
theorem C2_volume_reply (h : YX5300_Handler_t) (x : Nat)
    (hidx : h.Rx.BufferIndex = 0) (hlen : h.Rx.Buffer.length = 10)
    (hx : x ≠ 0xEF) :
    (YX5300_RxFeed h [0x7E, 0xFF, 0x06, 0x43, 0x00, 0x00, 0x1A, 0x00, x, 0xEF]).1
      = YX5300_RX_COMPLETE ∧
    (YX5300_RxFeed h [0x7E, 0xFF, 0x06, 0x43, 0x00, 0x00, 0x1A, 0x00, x, 0xEF]).2.Status.Volume
      = 26 :=
  ⟨(goodVolumeFrame_completes h x hidx hlen hx).1,
   (goodVolumeFrame_completes h x hidx hlen hx).2.1⟩

/-- Witness for C2 at a fresh handler with wildcard byte 0. -/
theorem C2_witness :
    (YX5300_RxFeed okHandler
        [0x7E, 0xFF, 0x06, 0x43, 0x00, 0x00, 0x1A, 0x00, 0, 0xEF]).1
      = YX5300_RX_COMPLETE ∧
    (YX5300_RxFeed okHandler
        [0x7E, 0xFF, 0x06, 0x43, 0x00, 0x00, 0x1A, 0x00, 0, 0xEF]).2.Status.Volume
      = 26 :=
  C2_volume_reply okHandler 0 rfl (by decide) (by decide)

/-- Counterexample to claim C3 as stated: the cursor is not always in
[0, capacity).  Feeding the start marker followed by nine non-end-marker
bytes leaves the cursor exactly at capacity = 10; it is reset to 0 only
at the start of the next feed. -/
theorem C3_counterexample :
    (YX5300_RxFeed okHandler [0x7E, 0, 0, 0, 0, 0, 0, 0, 0, 0]).2.Rx.BufferIndex
      = 10 ∧
    ¬ (YX5300_RxFeed okHandler [0x7E, 0, 0, 0, 0, 0, 0, 0, 0, 0]).2.Rx.BufferIndex
      < YX5300_RESPONSE_SIZE := by decide

/-- Claim C3 (amended): the receive cursor after a feed step is always in
[0, capacity] (it can equal capacity = 10 after the tenth in-frame byte);
every byte store happens at an index in [0, capacity); a cursor at or past
capacity is reset to 0 at the start of the next feed, which therefore
behaves exactly as if the cursor were 0; and feeding any run of ten bytes
none of which is 0x7E, starting at cursor 0, keeps every store in bounds
(at index 0), leaves the cursor at 0 and Device State untouched, and the
decoder still recognizes a subsequent well-formed frame. -/
theorem C3_cursor_invariant :
    (∀ h d, (YX5300_Rx h d).2.Rx.BufferIndex ≤ YX5300_RESPONSE_SIZE) ∧
    (∀ h, YX5300_RxStoreIndex h < YX5300_RESPONSE_SIZE) ∧
    (∀ h d, h.Rx.BufferIndex ≥ YX5300_RESPONSE_SIZE →
        YX5300_Rx h d = YX5300_Rx { h with Rx := { h.Rx with BufferIndex := 0 } } d) ∧
    (∀ h bytes, h.Rx.BufferIndex = 0 → h.Rx.Buffer.length = 10 →
        bytes.length = 10 → (∀ b ∈ bytes, b ≠ 0x7E) →
        (YX5300_RxFeed h bytes).2.Rx.BufferIndex = 0 ∧
        (YX5300_RxFeed h bytes).2.Status = h.Status ∧
        (YX5300_RxFeed (YX5300_RxFeed h bytes).2
            [0x7E, 0xFF, 0x06, 0x43, 0x00, 0x00, 0x1A, 0x00, 0x00, 0xEF]).1
          = YX5300_RX_COMPLETE) := by
  refine ⟨?_, rxStoreIndex_lt, ?_, ?_⟩
  · intro h d
    have hi := rxStoreIndex_lt h
    simp only [YX5300_Rx]
    by_cases h0 : YX5300_RxStoreIndex h = 0
    · by_cases hs : d = YX5300_CMD_START_BYTE <;>
        simp [h0, hs, YX5300_RESPONSE_SIZE]
    · by_cases he : d = YX5300_CMD_END_BYTE
      · simp only [h0, he, reduceIte, if_false, if_true]
        split <;> simp [YX5300_RESPONSE_SIZE] <;>
          simp [(parse_writes_last _).2.2.1]
      · simp [h0, he, YX5300_RESPONSE_SIZE]
        unfold YX5300_RxStoreIndex YX5300_RESPONSE_SIZE at hi ⊢
        omega
  · intro h d hge
    have h1 : YX5300_RxStoreIndex h = 0 := by
      unfold YX5300_RxStoreIndex
      exact if_pos hge
    have h2 : YX5300_RxStoreIndex { h with Rx := { h.Rx with BufferIndex := 0 } } = 0 := by
      unfold YX5300_RxStoreIndex YX5300_RESPONSE_SIZE
      simp
    simp only [YX5300_Rx, h1, h2]
  · intro h bytes hidx hlen hblen hb
    have hn := rxFeed_no_start bytes h hidx hb
    refine ⟨hn.1, hn.2.1, ?_⟩
    have hl2 : (YX5300_RxFeed h bytes).2.Rx.Buffer.length = 10 := by
      rw [hn.2.2.1, hlen]
    exact (goodVolumeFrame_completes (YX5300_RxFeed h bytes).2 0 hn.1 hl2
      (by decide)).1

/-- Witness for C3 at concrete handlers: cursor bound after a feed, store
index bound, overflow reset equivalence, and recovery after ten non-start
bytes. -/
theorem C3_witness :
    (YX5300_Rx okHandler 0x55).2.Rx.BufferIndex ≤ YX5300_RESPONSE_SIZE ∧
    YX5300_RxStoreIndex okHandler < YX5300_RESPONSE_SIZE ∧
    YX5300_Rx overflowHandler 0x55 = YX5300_Rx overflowHandlerReset 0x55 ∧
    ((YX5300_RxFeed okHandler (List.replicate 10 0x11)).2.Rx.BufferIndex = 0 ∧
     (YX5300_RxFeed okHandler (List.replicate 10 0x11)).2.Status = okHandler.Status ∧
     (YX5300_RxFeed (YX5300_RxFeed okHandler (List.replicate 10 0x11)).2
        [0x7E, 0xFF, 0x06, 0x43, 0x00, 0x00, 0x1A, 0x00, 0x00, 0xEF]).1
       = YX5300_RX_COMPLETE) :=
  ⟨C3_cursor_invariant.1 okHandler 0x55,
   C3_cursor_invariant.2.1 okHandler,
   C3_cursor_invariant.2.2.1 overflowHandler 0x55 (by decide),
   C3_cursor_invariant.2.2.2 okHandler (List.replicate 10 0x11) rfl (by decide)
     (by decide) (by decide)⟩

/-- Claim C4: a completed frame with an unrecognized response code (such
as 0x99) yields the frame-complete-but-unparseable outcome `YX5300_FAIL`,
leaves Volume, Track, StatusByte and MemoryInserted unchanged, and the
LastResponse and LastResponseData fields are written (from buffer offsets
3 and 5-6) before the dispatch, for every completed frame regardless of
whether the code is recognized. -/
theorem C4_unrecognized_code :
    (∀ h, (YX5300_ParseResponse h).2.Status.LastResponse
        = h.Rx.Buffer.getD 3 0 ∧
      (YX5300_ParseResponse h).2.Status.LastResponseData
        = (((h.Rx.Buffer.getD 5 0) <<< 8) ||| h.Rx.Buffer.getD 6 0) % 65536) ∧
    (∀ h, h.Rx.Buffer.getD 3 0
        ∉ ([0x3A, 0x3D, 0x40, 0x41, 0x42, 0x43, 0x48, 0x4C, 0x4E, 0x4F] : List Nat) →
      (YX5300_ParseResponse h).1 = YX5300_FAIL ∧
      (YX5300_ParseResponse h).2.Status.Volume = h.Status.Volume ∧
      (YX5300_ParseResponse h).2.Status.Track = h.Status.Track ∧
      (YX5300_ParseResponse h).2.Status.StatusByte = h.Status.StatusByte ∧
      (YX5300_ParseResponse h).2.Status.MemoryInserted = h.Status.MemoryInserted) ∧
    (∀ h x, h.Rx.BufferIndex = 0 → h.Rx.Buffer.length = 10 → x ≠ 0xEF →
      (YX5300_RxFeed h [0x7E, 0xFF, 0x06, 0x99, 0x00, 0x00, 0x00, 0x00, x, 0xEF]).1
        = YX5300_FAIL ∧
      (YX5300_RxFeed h [0x7E, 0xFF, 0x06, 0x99, 0x00, 0x00, 0x00, 0x00, x, 0xEF]).2.Status.Volume
        = h.Status.Volume ∧
      (YX5300_RxFeed h [0x7E, 0xFF, 0x06, 0x99, 0x00, 0x00, 0x00, 0x00, x, 0xEF]).2.Status.Track
        = h.Status.Track ∧
      (YX5300_RxFeed h [0x7E, 0xFF, 0x06, 0x99, 0x00, 0x00, 0x00, 0x00, x, 0xEF]).2.Status.StatusByte
        = h.Status.StatusByte ∧
      (YX5300_RxFeed h [0x7E, 0xFF, 0x06, 0x99, 0x00, 0x00, 0x00, 0x00, x, 0xEF]).2.Status.MemoryInserted
        = h.Status.MemoryInserted ∧
      (YX5300_RxFeed h [0x7E, 0xFF, 0x06, 0x99, 0x00, 0x00, 0x00, 0x00, x, 0xEF]).2.Status.LastResponse
        = 0x99 ∧
      (YX5300_RxFeed h [0x7E, 0xFF, 0x06, 0x99, 0x00, 0x00, 0x00, 0x00, x, 0xEF]).2.Status.LastResponseData
        = 0) := by
  refine ⟨fun h => ⟨(parse_writes_last h).1, (parse_writes_last h).2.1⟩, ?_, ?_⟩
  · intro h hnot
    simp only [List.mem_cons, List.not_mem_nil, or_false, not_or] at hnot
    obtain ⟨n1, n2, n3, n4, n5, n6, n7, n8, n9, n10⟩ := hnot
    simp only [List.getD_eq_getElem?_getD] at n1 n2 n3 n4 n5 n6 n7 n8 n9 n10
    simp [YX5300_ParseResponse, n1, n2, n3, n4, n5, n6, n7, n8, n9, n10]
  · intro h x hidx hlen hx
    obtain ⟨b0, b1, b2, b3, b4, b5, b6, b7, b8, b9, hbuf⟩ := buffer_ten _ hlen
    rcases h with ⟨plat, ⟨buf, idx⟩, st⟩
    simp only at hidx hbuf
    subst hidx hbuf
    simp [YX5300_RxFeed, YX5300_Rx, YX5300_RxStoreIndex, YX5300_RESPONSE_SIZE,
      YX5300_CMD_START_BYTE, YX5300_CMD_END_BYTE, YX5300_ParseResponse, hx]

/-- Witness for C4: a parse of an all-zero buffer (code 0, unrecognized)
and a full 0x99 frame fed to a fresh handler. -/
theorem C4_witness :
    ((YX5300_ParseResponse junkHandler).2.Status.LastResponse
        = junkHandler.Rx.Buffer.getD 3 0 ∧
     (YX5300_ParseResponse junkHandler).2.Status.LastResponseData
        = (((junkHandler.Rx.Buffer.getD 5 0) <<< 8)
            ||| junkHandler.Rx.Buffer.getD 6 0) % 65536) ∧
    ((YX5300_ParseResponse overflowHandler).1 = YX5300_FAIL ∧
     (YX5300_ParseResponse overflowHandler).2.Status.Volume
        = overflowHandler.Status.Volume ∧
     (YX5300_ParseResponse overflowHandler).2.Status.Track
        = overflowHandler.Status.Track ∧
     (YX5300_ParseResponse overflowHandler).2.Status.StatusByte
        = overflowHandler.Status.StatusByte ∧
     (YX5300_ParseResponse overflowHandler).2.Status.MemoryInserted
        = overflowHandler.Status.MemoryInserted) ∧
    ((YX5300_RxFeed okHandler
        [0x7E, 0xFF, 0x06, 0x99, 0x00, 0x00, 0x00, 0x00, 0, 0xEF]).1
      = YX5300_FAIL ∧
     (YX5300_RxFeed okHandler
        [0x7E, 0xFF, 0x06, 0x99, 0x00, 0x00, 0x00, 0x00, 0, 0xEF]).2.Status.LastResponse
      = 0x99) := by
  have hc := C4_unrecognized_code
  have h3 := hc.2.2 okHandler 0 rfl (by decide) (by decide)
  exact ⟨hc.1 junkHandler, hc.2.1 overflowHandler (by decide),
    h3.1, h3.2.2.2.2.2.1⟩

/-- Claim C9: while in a frame (cursor in [1, capacity)), a byte equal to
0xEF completes the frame at once — even if fewer than 10 bytes arrived —
resetting the cursor and triggering the parser, which reads the response
code and data from whatever buffer offsets 3, 5 and 6 hold; in
particular, feeding 0x7E immediately followed by 0xEF completes a frame
whose code and data come from leftover buffer contents. -/
theorem C9_early_end_marker :
    (∀ h, 1 ≤ h.Rx.BufferIndex → h.Rx.BufferIndex < YX5300_RESPONSE_SIZE →
      (YX5300_Rx h 0xEF).1 ≠ YX5300_OK ∧
      (YX5300_Rx h 0xEF).2.Rx.BufferIndex = 0 ∧
      (YX5300_Rx h 0xEF).2.Status.LastResponse
        = (h.Rx.Buffer.set h.Rx.BufferIndex 0xEF).getD 3 0 ∧
      (YX5300_Rx h 0xEF).2.Status.LastResponseData
        = ((((h.Rx.Buffer.set h.Rx.BufferIndex 0xEF).getD 5 0) <<< 8)
            ||| (h.Rx.Buffer.set h.Rx.BufferIndex 0xEF).getD 6 0) % 65536) ∧
    (∀ h, h.Rx.BufferIndex = 0 → h.Rx.Buffer.length = 10 →
      (YX5300_RxFeed h [0x7E, 0xEF]).1 ≠ YX5300_OK ∧
      (YX5300_RxFeed h [0x7E, 0xEF]).2.Status.LastResponse
        = h.Rx.Buffer.getD 3 0 ∧
      (YX5300_RxFeed h [0x7E, 0xEF]).2.Status.LastResponseData
        = (((h.Rx.Buffer.getD 5 0) <<< 8) ||| h.Rx.Buffer.getD 6 0) % 65536) := by
  have part1 : ∀ h : YX5300_Handler_t,
      1 ≤ h.Rx.BufferIndex → h.Rx.BufferIndex < YX5300_RESPONSE_SIZE →
      (YX5300_Rx h 0xEF).1 ≠ YX5300_OK ∧
      (YX5300_Rx h 0xEF).2.Rx.BufferIndex = 0 ∧
      (YX5300_Rx h 0xEF).2.Status.LastResponse
        = (h.Rx.Buffer.set h.Rx.BufferIndex 0xEF).getD 3 0 ∧
      (YX5300_Rx h 0xEF).2.Status.LastResponseData
        = ((((h.Rx.Buffer.set h.Rx.BufferIndex 0xEF).getD 5 0) <<< 8)
            ||| (h.Rx.Buffer.set h.Rx.BufferIndex 0xEF).getD 6 0) % 65536 := by
    intro h hge hlt
    have h0 : ¬ h.Rx.BufferIndex = 0 := by omega
    have hi : YX5300_RxStoreIndex h = h.Rx.BufferIndex := by
      unfold YX5300_RxStoreIndex YX5300_RESPONSE_SIZE at *
      rw [if_neg (by omega)]
    have hpw := parse_writes_last
      { h with Rx := { Buffer := h.Rx.Buffer.set h.Rx.BufferIndex 0xEF,
                       BufferIndex := 0 } }
    simp only [YX5300_Rx, hi, h0, YX5300_CMD_END_BYTE, if_false, reduceIte]
    refine ⟨by split <;> simp, ?_, ?_, ?_⟩ <;>
      · rw [show ∀ p : YX5300_Result_t × YX5300_Handler_t,
            (if p.1 ≠ YX5300_OK then (YX5300_FAIL, p.2)
             else (YX5300_RX_COMPLETE, p.2)).2 = p.2 from
          fun p => by split <;> rfl]
        simp only at hpw
        simp [hpw.1, hpw.2.1, hpw.2.2.1]
  refine ⟨part1, ?_⟩
  intro h hidx hlen
  have hstep : YX5300_Rx h 0x7E
      = (YX5300_OK,
         { h with Rx := { Buffer := h.Rx.Buffer.set 0 0x7E, BufferIndex := 1 } }) := by
    simp [YX5300_Rx, YX5300_RxStoreIndex, YX5300_RESPONSE_SIZE, hidx,
      YX5300_CMD_START_BYTE]
  have hp := part1
    { h with Rx := { Buffer := h.Rx.Buffer.set 0 0x7E, BufferIndex := 1 } }
    (by simp) (by simp [YX5300_RESPONSE_SIZE])
  rw [show YX5300_RxFeed h [0x7E, 0xEF] = YX5300_Rx (YX5300_Rx h 0x7E).2 0xEF
        from rfl, hstep]
  obtain ⟨b0, b1, b2, b3, b4, b5, b6, b7, b8, b9, hbuf⟩ := buffer_ten _ hlen
  refine ⟨hp.1, ?_, ?_⟩
  · rw [hp.2.2.1, hbuf]
    simp
  · rw [hp.2.2.2, hbuf]
    simp

/-- Witness for C9: an end marker arriving mid-frame at cursor 4, and the
two-byte sequence 7E EF over leftover buffer contents. -/
theorem C9_witness :
    ((YX5300_Rx midFrameHandler 0xEF).1 ≠ YX5300_OK ∧
     (YX5300_Rx midFrameHandler 0xEF).2.Rx.BufferIndex = 0 ∧
     (YX5300_Rx midFrameHandler 0xEF).2.Status.LastResponse
       = (midFrameHandler.Rx.Buffer.set midFrameHandler.Rx.BufferIndex 0xEF).getD 3 0 ∧
     (YX5300_Rx midFrameHandler 0xEF).2.Status.LastResponseData
       = ((((midFrameHandler.Rx.Buffer.set midFrameHandler.Rx.BufferIndex 0xEF).getD 5 0) <<< 8)
           ||| (midFrameHandler.Rx.Buffer.set midFrameHandler.Rx.BufferIndex 0xEF).getD 6 0) % 65536) ∧
    ((YX5300_RxFeed junkHandler [0x7E, 0xEF]).1 ≠ YX5300_OK ∧
     (YX5300_RxFeed junkHandler [0x7E, 0xEF]).2.Status.LastResponse
       = junkHandler.Rx.Buffer.getD 3 0 ∧
     (YX5300_RxFeed junkHandler [0x7E, 0xEF]).2.Status.LastResponseData
       = (((junkHandler.Rx.Buffer.getD 5 0) <<< 8)
           ||| junkHandler.Rx.Buffer.getD 6 0) % 65536) :=
  ⟨C9_early_end_marker.1 midFrameHandler (by decide) (by decide),
   C9_early_end_marker.2 junkHandler rfl (by decide)⟩

end YX5300
